import Mathlib

/-!
# Verification of the command-dispatch and background-job core of `Employer.py`

This file is a shallow embedding of `src/modules/Employer.py` (the
`Employer` class of the voice-assistant repository) together with proofs
about it.

Modelling conventions:
* External collaborators (`AI`, `Gmail`, `Weather`, `geocoder`, screen and
  mouse control) are black boxes per the specification; their behaviour is
  supplied through an `Env` record of oracle values, so each embedded
  function is a pure function of the environment and its arguments.
* Side effects (prints, text-to-speech, thread spawns, external calls) are
  recorded as an ordered `List Effect` trace.
* A Python function's outcome is a `PyResult`: the trace of effects it
  performed, the value it returned (`Value.none` for a bare `return`/fall
  through), and `error = some e` when an exception `e` escapes the function
  uncaught (there is no `try`/`except` anywhere in `Employer.py`).
* `Employer._active_jobs` is modelled as the list of registered job keys;
  the thread handles themselves are opaque, so only the keys matter.
* `threading.Thread.join()` blocks until the worker terminates.  The
  sequential summaries below record the join as an effect; the actual
  blocking interaction between `stop_checking_new_emails` and the polling
  worker is modelled faithfully by the `PollSystem` transition relation
  further down.
* Python floats (latitude, longitude, temperature) are modelled as `Int`;
  none of the verified properties depend on real arithmetic, only on
  which collaborator is called and on `None`-ness.
-/

/-- A Python value as far as the dispatch core manipulates one:
`None`, a boolean, or a string.  (Argument dictionaries coming back from
the inference collaborator hold such values.) -/
inductive Value where
  | none : Value
  | bool (b : Bool) : Value
  | str (s : String) : Value
  deriving DecidableEq, Repr

/-- Python truthiness for the values above (`if audio:`). -/
def Value.truthy : Value → Bool
  | Value.none => false
  | Value.bool b => b
  | Value.str s => !(s = "")

/-- Observable side effects of the embedded code, in program order. -/
inductive Effect where
  /-- `print(s)` to the console. -/
  | printed (s : String) : Effect
  /-- `Audio.text_to_speech(s)`. -/
  | spoke (s : String) : Effect
  /-- `threading.Thread(target=...).start()` of the named worker body. -/
  | spawnedThread (target : String) : Effect
  /-- `Thread.join()` on the worker registered under `key`. -/
  | joinedThread (key : String) : Effect
  /-- `Gmail.get_new_messages()`. -/
  | calledGetNewMessages : Effect
  /-- `AI.ask_question(q)`. -/
  | calledAskQuestion (q : Value) : Effect
  /-- `Weather.get_coordinates_for_city_name(city)`. -/
  | calledGetCoordinatesForCityName (city : Value) : Effect
  /-- `geocoder.ip("me")`. -/
  | calledGeocoderIp : Effect
  /-- `Weather.get_weather_for_coordinates(lat, lon)`. -/
  | calledGetWeatherForCoordinates (lat lon : Int) : Effect
  /-- `MouseController().idle_mouse()`. -/
  | calledIdleMouse : Effect
  /-- `os.startfile(path)`. -/
  | startedFile (path : String) : Effect
  /-- `os.system(cmd)`. -/
  | ranSystem (cmd : String) : Effect
  /-- `os._exit(code)`. -/
  | exitedProcess (code : Nat) : Effect
  deriving DecidableEq, Repr

/-- Outcome of running one embedded Python function: the effects it
performed, its return value, and the exception escaping it, if any. -/
structure PyResult where
  effects : List Effect
  ret : Value
  error : Option String
  deriving DecidableEq, Repr

/-- Result of `weather['weather'][0]['description']` / `weather['main']['temp']`
as used by `Employer.weather`. -/
structure WeatherInfo where
  description : String
  temp : Int
  deriving DecidableEq, Repr

/-- Result object of `geocoder.ip("me")`: its `.city` and `.latlng`
attributes (`latlng = none` models a lookup failure, whose unpacking
`lat, lon = my_geolocation.latlng` raises in Python). -/
structure GeoLocation where
  city : String
  latlng : Option (Int × Int)
  deriving DecidableEq, Repr

/-- Behaviour of the external collaborators for one run.  Each field is the
value (or raised exception) the corresponding black-box call produces. -/
structure Env where
  /-- `Gmail.get_new_messages()`: a list of messages, or a raised exception. -/
  gmail_get_new_messages : Except String (List String)
  /-- `Gmail.format_message(m)`. -/
  gmail_format_message : String → String
  /-- `AI.ask_question(q)`: `none` models the `answer is None` failure path. -/
  ai_ask_question : Value → Option String
  /-- `Weather.get_coordinates_for_city_name(city)`: the `(lat, lon)` pair,
  each possibly `None`. -/
  weather_get_coordinates_for_city_name : Value → Option Int × Option Int
  /-- `Weather.get_weather_for_coordinates(lat, lon)`: `none` models the
  `weather is None` failure path. -/
  weather_get_weather_for_coordinates : Int → Int → Option WeatherInfo
  /-- `geocoder.ip("me")`. -/
  geocoder_ip : GeoLocation

/-- Argument dictionary passed to an action handler: Python `dict[str, _]`
keyed by parameter name, kept in insertion order. -/
abbrev Args := List (String × Value)

/-- `args[k]` lookup: the binding of `k`, if any. -/
def dictLookup (args : Args) (k : String) : Option Value :=
  match args with
  | [] => Option.none
  | p :: rest => if p.1 = k then Option.some p.2 else dictLookup rest k

/-- `args[k] = v`, Python dict assignment: overwrite an existing binding in
place, else append at the end. -/
def dictInsert (args : Args) (k : String) (v : Value) : Args :=
  match args with
  | [] => [(k, v)]
  | p :: rest => if p.1 = k then (k, v) :: rest else p :: dictInsert rest k v

/-- The structured call returned by `AI.get_function_to_call`:
`{"name": ..., "args": {...}}`.  The collaborator returning `None`
("no match") is modelled by `Option FunctionCall` at the call site. -/
structure FunctionCall where
  name : String
  args : Args
  deriving DecidableEq

/-- Modelled from the spec: the `Commands` module is not under `src/`; the
spec states that the registry's `list_names()` "produces all registered
names in registration order".  These are the keys of `available_jobs` in
`Employer.__init__`, in dictionary (insertion) order. -/
def Commands.get_all_commands : List String :=
  ["help", "ask_question", "check_new_emails", "start_checking_new_emails",
   "stop_checking_new_emails", "weather", "accept_game", "idle_mouse",
   "queue_up", "close_computer", "exit"]

/-- `Employer.help` (Employer.py lines 62-83). -/
def help (audio : Bool) : PyResult :=
  let string_commends := String.intercalate ", " Commands.get_all_commands
  let announcement := "Available commands are: " ++ string_commends ++ "."
  { effects := [Effect.printed "Getting all commands...",
      if audio then Effect.spoke announcement else Effect.printed announcement],
    ret := Value.none,
    error := Option.none }

/-- `Employer.ask_question` (lines 85-111). -/
def ask_question (env : Env) (question : Value) (audio : Bool) : PyResult :=
  let e0 := [Effect.printed "Asking question...", Effect.calledAskQuestion question]
  match env.ai_ask_question question with
  | Option.none =>
      { effects := e0 ++ [Effect.printed "Error: Could not retrieve an answer."],
        ret := Value.none, error := Option.none }
  | Option.some answer =>
      { effects := e0 ++ [if audio then Effect.spoke answer else Effect.printed answer],
        ret := Value.none, error := Option.none }

/-- `Employer.check_new_emails` (lines 113-141).  An exception raised by
`Gmail.get_new_messages()` is not caught and escapes the function. -/
def check_new_emails (env : Env) (audio : Bool) : PyResult :=
  let e0 := [Effect.printed "Checking new emails...", Effect.calledGetNewMessages]
  match env.gmail_get_new_messages with
  | Except.error e => { effects := e0, ret := Value.none, error := Option.some e }
  | Except.ok messages =>
      let notify := fun (s : String) => if audio then Effect.spoke s else Effect.printed s
      { effects := e0
          ++ [notify ("You have " ++ toString messages.length ++ " new messages.")]
          ++ List.map (fun m => notify (env.gmail_format_message m)) messages,
        ret := Value.none, error := Option.none }

/-- `Employer.start_checking_new_emails` (lines 143-175), acting on the
job map `Employer._active_jobs` (modelled as the list of its keys).
A thread running `wrapper` is spawned, and the key registered, only when
`"check_new_emails"` is not already a key of the map.  The Python function
returns `None` in both cases. -/
def start_checking_new_emails (jobs : List String) (audio : Bool) : List String × PyResult :=
  let e0 := [Effect.printed "Checking new emails every 15 minutes..."]
  if List.contains jobs "check_new_emails" then
    (jobs, { effects := e0, ret := Value.none, error := Option.none })
  else
    ("check_new_emails" :: jobs,
     { effects := e0 ++ [Effect.spawnedThread "check_new_emails_wrapper"],
       ret := Value.none, error := Option.none })

/-- `Employer.stop_checking_new_emails` (lines 177-191).  When the key is
present the code calls `.join()` on the stored thread and then deletes the
key.  The join's blocking semantics is modelled by `PollSystem` below; this
sequential summary records the join as an effect and the deletion that the
code performs after (and only after) the join returns.  The function
returns `None` in both cases. -/
def stop_checking_new_emails (jobs : List String) : List String × PyResult :=
  let e0 := [Effect.printed "Stopping checking new emails..."]
  if List.contains jobs "check_new_emails" then
    (List.erase jobs "check_new_emails",
     { effects := e0 ++ [Effect.joinedThread "check_new_emails"],
       ret := Value.none, error := Option.none })
  else
    (jobs, { effects := e0, ret := Value.none, error := Option.none })

/-- The success message built by `Employer.weather`
(`f"The weather for {city} is {...description} with {...temp}°C."`). -/
def mkWeatherString (city : String) (w : WeatherInfo) : String :=
  "The weather for " ++ city ++ " is " ++ w.description ++ " with "
    ++ toString w.temp ++ "°C."

/-- `Employer.weather` (lines 193-237).  `city` is `None` or `""` ⇒ the
coordinates and city name come from `geocoder.ip("me")`; otherwise from
`Weather.get_coordinates_for_city_name(city)`.  A `latlng` of `None`
makes the tuple-unpacking `lat, lon = my_geolocation.latlng` raise. -/
def weather (env : Env) (city : Value) (audio : Bool) : PyResult :=
  let e0 := [Effect.printed "Getting weather..."]
  let branch : Except (List Effect × String) (List Effect × String × Option Int × Option Int) :=
    if city = Value.none ∨ city = Value.str "" then
      match env.geocoder_ip.latlng with
      | Option.none =>
          Except.error (e0 ++ [Effect.calledGeocoderIp],
            "TypeError: cannot unpack non-iterable NoneType object")
      | Option.some (lat, lon) =>
          Except.ok (e0 ++ [Effect.calledGeocoderIp], env.geocoder_ip.city,
            Option.some lat, Option.some lon)
    else
      let (lat, lon) := env.weather_get_coordinates_for_city_name city
      let cityStr := match city with
        | Value.str s => s
        | Value.bool b => if b then "True" else "False"
        | Value.none => "None"
      Except.ok (e0 ++ [Effect.calledGetCoordinatesForCityName city], cityStr, lat, lon)
  match branch with
  | Except.error (effs, e) => { effects := effs, ret := Value.none, error := Option.some e }
  | Except.ok (effs, cityStr, latOpt, lonOpt) =>
      match latOpt, lonOpt with
      | Option.some lat, Option.some lon =>
          let effs := effs ++ [Effect.calledGetWeatherForCoordinates lat lon]
          match env.weather_get_weather_for_coordinates lat lon with
          | Option.none =>
              { effects := effs ++ [Effect.printed "Error: Could not retrieve weather information."],
                ret := Value.none, error := Option.none }
          | Option.some w =>
              let msg := mkWeatherString cityStr w
              { effects := effs ++ [if audio then Effect.spoke msg else Effect.printed msg],
                ret := Value.none, error := Option.none }
      | _, _ =>
          { effects := effs ++ [Effect.printed "Error: Could not retrieve coordinates for the given city."],
            ret := Value.none, error := Option.none }

/-- `Employer.accept_game` (lines 239-284): unconditionally spawns a new
daemon thread running the screen-watching `wrapper`; the job map is never
consulted or modified. -/
def accept_game (jobs : List String) : List String × PyResult :=
  (jobs,
   { effects := [Effect.printed "Accepting game...", Effect.spawnedThread "accept_game_wrapper"],
     ret := Value.none, error := Option.none })

/-- `Employer.idle_mouse` (lines 286-299). -/
def idle_mouse : PyResult :=
  { effects := [Effect.printed "Idling mouse...", Effect.calledIdleMouse],
    ret := Value.none, error := Option.none }

/-- `Employer.queue_up` (lines 301-312). -/
def queue_up : PyResult :=
  { effects := [Effect.printed "Queueing up...",
      Effect.startedFile "C:/Users/Public/Desktop/League of Legends.lnk"],
    ret := Value.none, error := Option.none }

/-- `Employer.close_computer` (lines 314-331). -/
def close_computer (audio : Bool) : PyResult :=
  { effects := [Effect.printed "Closing computer...",
      if audio then Effect.spoke "o7" else Effect.printed "o7",
      Effect.ranSystem "shutdown /s /f /t 0"],
    ret := Value.none, error := Option.none }

/-- `Employer.exit` (lines 333-350). -/
def exitJob (audio : Bool) : PyResult :=
  { effects := [Effect.printed "Exiting program...",
      if audio then Effect.spoke "o7" else Effect.printed "o7",
      Effect.exitedProcess 0],
    ret := Value.none, error := Option.none }

/-- The keys of `self.available_jobs` built in `Employer.__init__`
(lines 20-32), in dictionary insertion order. -/
def available_job_names : List String :=
  ["help", "ask_question", "check_new_emails", "start_checking_new_emails",
   "stop_checking_new_emails", "weather", "accept_game", "idle_mouse",
   "queue_up", "close_computer", "exit"]

/-- Dispatch `self.available_jobs[function_name](**function_args)`: bind
the argument dictionary against the handler's Python signature and run the
handler.  Every handler declares `**kwargs`, so extra keys are absorbed;
`ask_question`'s required `question` parameter, when missing, makes the
call itself raise `TypeError` (Python call semantics). -/
def callJob (env : Env) (jobs : List String) (name : String) (args : Args) :
    List String × PyResult :=
  let audio := Value.truthy ((dictLookup args "audio").getD (Value.bool false))
  if name = "help" then (jobs, help audio)
  else if name = "ask_question" then
    match dictLookup args "question" with
    | Option.none =>
        (jobs, { effects := [], ret := Value.none,
                 error := Option.some "TypeError: ask_question() missing 1 required positional argument: question" })
    | Option.some q => (jobs, ask_question env q audio)
  else if name = "check_new_emails" then (jobs, check_new_emails env audio)
  else if name = "start_checking_new_emails" then start_checking_new_emails jobs audio
  else if name = "stop_checking_new_emails" then stop_checking_new_emails jobs
  else if name = "weather" then
    (jobs, weather env ((dictLookup args "city").getD Value.none) audio)
  else if name = "accept_game" then accept_game jobs
  else if name = "idle_mouse" then (jobs, idle_mouse)
  else if name = "queue_up" then (jobs, queue_up)
  else if name = "close_computer" then (jobs, close_computer audio)
  else if name = "exit" then (jobs, exitJob audio)
  else (jobs, { effects := [], ret := Value.none, error := Option.none })

/-- `Employer.job_on_command` (lines 36-60).  `bot_response` is the value
returned by the external `AI.get_function_to_call` collaborator (`none` =
no match).  On `None` an error is printed and nothing runs; otherwise
`function_args["audio"] = self.audio` overwrites any resolver-supplied
`audio` value, and the handler is invoked only when `function_name` is a
key of `available_jobs` — an unknown name is silently ignored. -/
def job_on_command (env : Env) (selfAudio : Bool) (jobs : List String)
    (bot_response : Option FunctionCall) : List String × PyResult :=
  match bot_response with
  | Option.none =>
      (jobs, { effects := [Effect.printed "Error: Could not determine function to call."],
               ret := Value.none, error := Option.none })
  | Option.some fc =>
      let function_args := dictInsert fc.args "audio" (Value.bool selfAudio)
      if List.contains available_job_names fc.name then
        callJob env jobs fc.name function_args
      else
        (jobs, { effects := [], ret := Value.none, error := Option.none })

/-!
## Concurrent model of the polling worker and `stop_checking_new_emails`

`start_checking_new_emails` spawns (lines 162-168):

```python
def wrapper():
    while True:
        if "check_new_emails" not in Employer._active_jobs:
            break
        Employer.check_new_emails(audio=audio)
        time.sleep(60 * minutes)
```

and `stop_checking_new_emails` (lines 189-191) runs, with the key present:

```python
Employer._active_jobs["check_new_emails"].join()
del Employer._active_jobs["check_new_emails"]
```

The transition system below interleaves the worker with a stop call that
has already passed its membership test and entered `join()`.  The worker is
assumed exception-free (a raise inside `check_new_emails` would kill the
worker thread; the spec's bounded-wait property concerns cooperative
cancellation, i.e. the normal execution).
-/

/-- Program counter of the `wrapper` polling loop. -/
inductive WorkerPC where
  /-- About to test `"check_new_emails" not in Employer._active_jobs`. -/
  | atCheck : WorkerPC
  /-- About to run `Employer.check_new_emails(audio=audio)`. -/
  | atWork : WorkerPC
  /-- Inside `time.sleep(60 * minutes)`. -/
  | atSleep : WorkerPC
  /-- The loop has exited (`break`), i.e. the thread has terminated. -/
  | exited : WorkerPC
  deriving DecidableEq, Repr

/-- Joint state of the job map, the polling worker, and a pending
`stop_checking_new_emails` call that is blocked in `join()`. -/
structure PollSystem where
  /-- `"check_new_emails" in Employer._active_jobs`. -/
  hasKey : Bool
  /-- Where the worker thread is. -/
  worker : WorkerPC
  /-- Whether the stop call's `join()` has returned (after which it deletes
  the key and returns). -/
  stopDone : Bool
  deriving DecidableEq, Repr

/-- One interleaved step of the worker thread or of the blocked stop call.
`join()` can return only once the worker thread has terminated, and only
then does `del Employer._active_jobs["check_new_emails"]` run. -/
inductive PollStep : PollSystem → PollSystem → Prop where
  /-- The membership test finds the key present: continue into the body. -/
  | check_key_present (s : PollSystem) :
      s.worker = WorkerPC.atCheck → s.hasKey = true →
      PollStep s { s with worker := WorkerPC.atWork }
  /-- The membership test finds the key absent: `break`, thread terminates. -/
  | check_key_absent (s : PollSystem) :
      s.worker = WorkerPC.atCheck → s.hasKey = false →
      PollStep s { s with worker := WorkerPC.exited }
  /-- One unit of work (`check_new_emails`) completes; move to the sleep. -/
  | work_done (s : PollSystem) :
      s.worker = WorkerPC.atWork →
      PollStep s { s with worker := WorkerPC.atSleep }
  /-- The sleep elapses; loop back to the membership test. -/
  | sleep_done (s : PollSystem) :
      s.worker = WorkerPC.atSleep →
      PollStep s { s with worker := WorkerPC.atCheck }
  /-- `join()` returns because the worker terminated; the stop call then
  deletes the key and finishes. -/
  | join_returns (s : PollSystem) :
      s.worker = WorkerPC.exited → s.stopDone = false →
      PollStep s { s with hasKey := false, stopDone := true }

/-- The state right after `start_checking_new_emails` has registered the
job (worker entering its loop test) and `stop_checking_new_emails` has been
called and is blocked in `join()`. -/
def pollInit : PollSystem :=
  { hasKey := true, worker := WorkerPC.atCheck, stopDone := false }

/-!
## Iterated calls (for the deduplication claims)
-/

/-- Number of threads a result spawned (`threading.Thread(...).start()`). -/
def spawnCount (r : PyResult) : Nat :=
  List.countP (fun e => match e with
    | Effect.spawnedThread _ => true
    | _ => false) r.effects

/-- `n` successive calls of `start_checking_new_emails`, returning the
final job map and the total number of worker threads spawned. -/
def iterateStart (audio : Bool) : Nat → List String → List String × Nat
  | 0, jobs => (jobs, 0)
  | Nat.succ n, jobs =>
      let (jobs1, r) := start_checking_new_emails jobs audio
      let (jobs2, c) := iterateStart audio n jobs1
      (jobs2, spawnCount r + c)

/-- `n` successive calls of `accept_game`, returning the final job map and
the total number of watcher threads spawned. -/
def iterateAcceptGame : Nat → List String → List String × Nat
  | 0, jobs => (jobs, 0)
  | Nat.succ n, jobs =>
      let (jobs1, r) := accept_game jobs
      let (jobs2, c) := iterateAcceptGame n jobs1
      (jobs2, spawnCount r + c)

/-!
## A concrete collaborator environment for closed evaluations
-/

/-- A benign environment: every collaborator succeeds with fixed data. -/
def env0 : Env :=
  { gmail_get_new_messages := Except.ok ["m1"],
    gmail_format_message := fun m => "mail: " ++ m,
    ai_ask_question := fun _ => Option.some "forty-two",
    weather_get_coordinates_for_city_name := fun _ => (Option.some 52, Option.some 21),
    weather_get_weather_for_coordinates := fun _ _ =>
      Option.some { description := "clear sky", temp := 20 },
    geocoder_ip := { city := "Warsaw", latlng := Option.some (52, 21) } }

/-- The environment of a run in which `Gmail.get_new_messages()` raises. -/
def envGmailDown : Env :=
  { env0 with gmail_get_new_messages := Except.error "Gmail unreachable" }

/-- The environment of a run in which the city-name coordinates
collaborator fails (`(None, None)`). -/
def envNoCoords : Env :=
  { env0 with weather_get_coordinates_for_city_name := fun _ => (Option.none, Option.none) }

/-!
## Theorems
-/

section Claims

/-- Every state reachable while `stop_checking_new_emails` is blocked in
`join()` keeps the key registered, the worker alive, and the stop call
incomplete. -/
theorem pollSystem_invariant (s : PollSystem)
    (h : Relation.ReflTransGen PollStep pollInit s) :
    s.hasKey = true ∧ s.worker ≠ WorkerPC.exited ∧ s.stopDone = false := by
  induction h with
  | refl => exact ⟨rfl, by simp [pollInit], rfl⟩
  | tail _ hstep ih =>
      obtain ⟨hkey, hworker, hstop⟩ := ih
      cases hstep with
      | check_key_present hpc hk => exact ⟨hkey, by simp, hstop⟩
      | check_key_absent hpc hk => rw [hkey] at hk; exact absurd hk (by decide)
      | work_done hpc => exact ⟨hkey, by simp, hstop⟩
      | sleep_done hpc => exact ⟨hkey, by simp, hstop⟩
      | join_returns hpc hs => exact absurd hpc hworker

/-- C1: the claim that a stop request is observed within one polling
interval and that the stop operation terminates is FALSE of the code:
`stop_checking_new_emails` calls `.join()` on the worker thread *before*
deleting `"check_new_emails"` from `Employer._active_jobs`, yet the worker
loop only exits once that key is absent.  Along every interleaving from the
started-then-stopped state, the worker never observes cancellation (never
exits its loop) and the `join()` never returns. -/
theorem stop_join_never_returns (s : PollSystem)
    (h : Relation.ReflTransGen PollStep pollInit s) :
    s.stopDone = false ∧ s.worker ≠ WorkerPC.exited := by
  have := pollSystem_invariant s h
  exact ⟨this.2.2, this.2.1⟩

/-- Witness for `stop_join_never_returns` at the initial state itself. -/
theorem stop_join_never_returns_witness :
    pollInit.stopDone = false ∧ pollInit.worker ≠ WorkerPC.exited :=
  stop_join_never_returns pollInit Relation.ReflTransGen.refl

/-- C2 counterexample: the first `start_checking_new_emails` call does not
return `true` — the Python function returns `None` (and so does the second
call); the claim's "returns `true` on the first call" is false. -/
theorem start_checking_new_emails_returns_none :
    (start_checking_new_emails [] false).2.ret = Value.none ∧
      Value.none ≠ Value.bool true := by
  exact ⟨rfl, by decide⟩

/-- Helper: once the key is registered, further `start_checking_new_emails`
calls spawn nothing and leave the job map unchanged. -/
theorem iterateStart_of_mem (audio : Bool) (n : Nat) (jobs : List String)
    (h : "check_new_emails" ∈ jobs) :
    iterateStart audio n jobs = (jobs, 0) := by
  induction n with
  | zero => rfl
  | succ n ih => simp [iterateStart, start_checking_new_emails, h, ih, spawnCount]

/-- C2 (amended): the first `start_checking_new_emails` call on a job map
without the key spawns exactly one worker thread and registers the key; an
immediately following call spawns no thread and leaves the job map
unchanged; over any number of successive calls at most one worker is ever
spawned; and the function returns `None` (not a boolean) in both calls. -/
theorem start_checking_new_emails_dedup (audio : Bool) (jobs : List String)
    (h : "check_new_emails" ∉ jobs) :
    spawnCount (start_checking_new_emails jobs audio).2 = 1 ∧
    "check_new_emails" ∈ (start_checking_new_emails jobs audio).1 ∧
    (start_checking_new_emails (start_checking_new_emails jobs audio).1 audio).1 =
      (start_checking_new_emails jobs audio).1 ∧
    spawnCount (start_checking_new_emails (start_checking_new_emails jobs audio).1 audio).2 = 0 ∧
    (start_checking_new_emails jobs audio).2.ret = Value.none ∧
    (start_checking_new_emails (start_checking_new_emails jobs audio).1 audio).2.ret = Value.none ∧
    (∀ n, (iterateStart audio n jobs).2 ≤ 1) := by
  refine ⟨?_, ?_, ?_, ?_, ?_, ?_, ?_⟩
  · simp [start_checking_new_emails, h, spawnCount]
  · simp [start_checking_new_emails, h]
  · simp [start_checking_new_emails, h]
  · simp [start_checking_new_emails, h, spawnCount]
  · simp [start_checking_new_emails, h]
  · simp [start_checking_new_emails, h]
  · intro n
    cases n with
    | zero => simp [iterateStart]
    | succ n =>
        have hmem : "check_new_emails" ∈ ("check_new_emails" :: jobs) :=
          List.mem_cons_self _ _
        simp [iterateStart, start_checking_new_emails, h, spawnCount,
          iterateStart_of_mem audio n _ hmem]

/-- Witness for `start_checking_new_emails_dedup` on the empty job map. -/
theorem start_checking_new_emails_dedup_witness :
    spawnCount (start_checking_new_emails [] false).2 = 1 ∧
      (iterateStart false 5 []).2 ≤ 1 := by
  have h := start_checking_new_emails_dedup false [] (by decide)
  exact ⟨h.1, h.2.2.2.2.2.2 5⟩

/-- C5 counterexample: `stop_checking_new_emails` on a job map without the
key does not return `false` — the Python function returns `None`; the
claim's "returns false" is false of the code. -/
theorem stop_checking_new_emails_returns_none :
    (stop_checking_new_emails []).2.ret = Value.none ∧
      Value.none ≠ Value.bool false := by
  exact ⟨rfl, by decide⟩

/-- C5 (amended): `stop_checking_new_emails` on a job map in which
`"check_new_emails"` is not registered leaves the job map unchanged,
performs no join and no other state change (its only effect is the log
print), raises nothing, and returns `None` (not a boolean). -/
theorem stop_checking_new_emails_absent_noop (jobs : List String)
    (h : "check_new_emails" ∉ jobs) :
    stop_checking_new_emails jobs =
      (jobs, { effects := [Effect.printed "Stopping checking new emails..."],
               ret := Value.none, error := Option.none }) := by
  simp [stop_checking_new_emails, h]

/-- Witness for `stop_checking_new_emails_absent_noop` on the empty map. -/
theorem stop_checking_new_emails_absent_noop_witness :
    stop_checking_new_emails [] =
      ([], { effects := [Effect.printed "Stopping checking new emails..."],
             ret := Value.none, error := Option.none }) :=
  stop_checking_new_emails_absent_noop [] (by decide)

/-- C8: every `accept_game` invocation spawns exactly one new watcher
thread regardless of the current job map (no deduplication by key: `n`
successive invocations spawn `n` independent watchers), and the job map is
never consulted or modified. -/
theorem accept_game_always_spawns (jobs : List String) (n : Nat) :
    (accept_game jobs).1 = jobs ∧
    spawnCount (accept_game jobs).2 = 1 ∧
    iterateAcceptGame n jobs = (jobs, n) := by
  refine ⟨rfl, rfl, ?_⟩
  induction n with
  | zero => rfl
  | succ n ih => simp [iterateAcceptGame, accept_game, spawnCount, ih, Nat.add_comm]

/-- C3 counterexample: with the command resolved to `check_new_emails` and
a Gmail backend that raises, `job_on_command` lets the exception escape —
nothing is caught at the dispatch boundary and no error message reaches the
output channel (the trace holds only the pre-failure log line and the
collaborator call). -/
theorem job_on_command_gmail_error_escapes :
    (job_on_command envGmailDown false [] (Option.some ⟨"check_new_emails", []⟩)).2 =
      { effects := [Effect.printed "Checking new emails...", Effect.calledGetNewMessages],
        ret := Value.none, error := Option.some "Gmail unreachable" } := by
  rfl

/-- C3 (amended): exceptions raised inside an invoked handler are NOT
caught at the dispatch boundary — `job_on_command` has no `try`/`except`,
so a handler's exception propagates out of the dispatch call unchanged
(shown here for any run whose `Gmail.get_new_messages` collaborator
raises while `check_new_emails` is dispatched); only the resolver's
no-match `None` is handled. -/
theorem job_on_command_handler_error_propagates (env : Env) (selfAudio : Bool)
    (jobs : List String) (args : Args) (e : String)
    (h : env.gmail_get_new_messages = Except.error e) :
    (job_on_command env selfAudio jobs (Option.some ⟨"check_new_emails", args⟩)).2.error =
      Option.some e := by
  simp [job_on_command, callJob, check_new_emails, h, available_job_names]

/-- Witness for `job_on_command_handler_error_propagates` at the concrete
failing environment. -/
theorem job_on_command_handler_error_propagates_witness :
    (job_on_command envGmailDown true [] (Option.some ⟨"check_new_emails", []⟩)).2.error =
      Option.some "Gmail unreachable" :=
  job_on_command_handler_error_propagates envGmailDown true [] [] "Gmail unreachable" rfl

/-- C4 counterexample: when the inference collaborator returns a name that
is not a registered action, `job_on_command` performs no effect at all — in
particular the failure is NOT reported to the user (the claim's "the
failure is reported" is false of the code on this input). -/
theorem job_on_command_unknown_name_silent :
    job_on_command env0 false [] (Option.some ⟨"unknown_function", []⟩) =
      ([], { effects := [], ret := Value.none, error := Option.none }) := by
  rfl

/-- C4 (amended): when the collaborator signals no match (`None`), the
failure is reported and no handler is invoked; when it returns a name not
among the registered actions, no handler is invoked and the job map is
unchanged, but nothing is reported (the mismatch is silently ignored);
in neither case does the dispatcher fall back to a default action. -/
theorem job_on_command_no_match (env : Env) (selfAudio : Bool) (jobs : List String) :
    (job_on_command env selfAudio jobs Option.none =
      (jobs, { effects := [Effect.printed "Error: Could not determine function to call."],
               ret := Value.none, error := Option.none })) ∧
    (∀ fc : FunctionCall, fc.name ∉ available_job_names →
      job_on_command env selfAudio jobs (Option.some fc) =
        (jobs, { effects := [], ret := Value.none, error := Option.none })) := by
  refine ⟨rfl, ?_⟩
  intro fc hfc
  simp [job_on_command, hfc]

/-- Witness for `job_on_command_no_match` on concrete inputs. -/
theorem job_on_command_no_match_witness :
    (job_on_command env0 true ["check_new_emails"] Option.none =
      (["check_new_emails"],
       { effects := [Effect.printed "Error: Could not determine function to call."],
         ret := Value.none, error := Option.none })) ∧
    (job_on_command env0 true ["check_new_emails"]
        (Option.some ⟨"make_coffee", [("strength", Value.str "double")]⟩) =
      (["check_new_emails"], { effects := [], ret := Value.none, error := Option.none })) := by
  have h := job_on_command_no_match env0 true ["check_new_emails"]
  exact ⟨h.1, h.2 ⟨"make_coffee", [("strength", Value.str "double")]⟩ (by decide)⟩

/-- C6 counterexample: the text `help` writes to the output channel is the
decorated sentence `"Available commands are: <names>."`, which differs from
the bare `", "`-join of the registered action names that the claim asserts
it to equal. -/
theorem help_output_not_bare_join :
    (help false).effects =
      [Effect.printed "Getting all commands...",
       Effect.printed ("Available commands are: "
         ++ String.intercalate ", " Commands.get_all_commands ++ ".")] ∧
    ("Available commands are: " ++ String.intercalate ", " Commands.get_all_commands ++ ".")
      ≠ String.intercalate ", " Commands.get_all_commands := by
  exact ⟨rfl, by decide⟩

/-- C6 (amended): for either output mode, `help` first logs
`"Getting all commands..."` to the console and then writes to the selected
output channel (speech when `audio`, console print otherwise) exactly the
text `"Available commands are: "` followed by the registry's action names
joined with `", "`, followed by `"."`. -/
theorem help_announces_commands (audio : Bool) :
    (help audio).effects =
      [Effect.printed "Getting all commands...",
       if audio then
         Effect.spoke ("Available commands are: "
           ++ String.intercalate ", " Commands.get_all_commands ++ ".")
       else
         Effect.printed ("Available commands are: "
           ++ String.intercalate ", " Commands.get_all_commands ++ ".")] := by
  cases audio <;> rfl

/-- C7: when a (non-empty) city name is supplied and the coordinates
collaborator fails to produce both coordinates, `weather` reports the
error and performs no further external calls — in particular the
weather-lookup collaborator is never called (the full trace is the initial
log line, the one coordinates call, and the error report). -/
theorem weather_coords_failure_stops (env : Env) (audio : Bool) (c : String)
    (hc : c ≠ "")
    (hfail : (env.weather_get_coordinates_for_city_name (Value.str c)).1 = Option.none ∨
             (env.weather_get_coordinates_for_city_name (Value.str c)).2 = Option.none) :
    weather env (Value.str c) audio =
      { effects := [Effect.printed "Getting weather...",
          Effect.calledGetCoordinatesForCityName (Value.str c),
          Effect.printed "Error: Could not retrieve coordinates for the given city."],
        ret := Value.none, error := Option.none } := by
  have hcity : ¬(Value.str c = Value.none ∨ Value.str c = Value.str "") := by
    rintro (h | h)
    · exact Value.noConfusion h
    · exact hc (by injection h)
  unfold weather
  simp only [hcity, if_neg, ite_false]
  rcases hpair : env.weather_get_coordinates_for_city_name (Value.str c) with ⟨l1, l2⟩
  rw [hpair] at hfail
  rcases hfail with hfail | hfail <;> rcases h1 : l1 with _ | lat <;> rcases h2 : l2 with _ | lon <;>
    simp_all

/-- Witness for `weather_coords_failure_stops` with the failing
coordinates collaborator and the city `"Paris"`. -/
theorem weather_coords_failure_stops_witness :
    weather envNoCoords (Value.str "Paris") false =
      { effects := [Effect.printed "Getting weather...",
          Effect.calledGetCoordinatesForCityName (Value.str "Paris"),
          Effect.printed "Error: Could not retrieve coordinates for the given city."],
        ret := Value.none, error := Option.none } :=
  weather_coords_failure_stops envNoCoords false "Paris" (by decide) (Or.inl rfl)

/-- C10: when the `city` argument is `None` or the empty string, `weather`
takes the coordinates and the city name from the machine's IP-based
geolocation (`geocoder.ip("me")`) and never calls the city-name
coordinates collaborator; the latter is called (and the geolocation is
not consulted) exactly when a non-empty city is supplied. -/
theorem weather_city_source (env : Env) (audio : Bool) (city : Value) :
    ((city = Value.none ∨ city = Value.str "") →
      Effect.calledGeocoderIp ∈ (weather env city audio).effects ∧
      (∀ v, Effect.calledGetCoordinatesForCityName v ∉ (weather env city audio).effects) ∧
      (∀ la lo w, env.geocoder_ip.latlng = Option.some (la, lo) →
        env.weather_get_weather_for_coordinates la lo = Option.some w →
        (weather env city audio).effects =
          [Effect.printed "Getting weather...", Effect.calledGeocoderIp,
           Effect.calledGetWeatherForCoordinates la lo,
           if audio then Effect.spoke (mkWeatherString env.geocoder_ip.city w)
           else Effect.printed (mkWeatherString env.geocoder_ip.city w)])) ∧
    (¬(city = Value.none ∨ city = Value.str "") →
      Effect.calledGeocoderIp ∉ (weather env city audio).effects ∧
      Effect.calledGetCoordinatesForCityName city ∈ (weather env city audio).effects) := by
  constructor
  · intro hcity
    refine ⟨?_, ?_, ?_⟩
    · unfold weather
      simp only [hcity, if_pos, ite_true]
      rcases hll : env.geocoder_ip.latlng with _ | ⟨la, lo⟩
      · simp
      · rcases hw : env.weather_get_weather_for_coordinates la lo with _ | w <;>
          rcases audio <;> simp [hw]
    · intro v
      unfold weather
      simp only [hcity, if_pos, ite_true]
      rcases hll : env.geocoder_ip.latlng with _ | ⟨la, lo⟩
      · simp
      · rcases hw : env.weather_get_weather_for_coordinates la lo with _ | w <;>
          rcases audio <;> simp [hw]
    · intro la lo w hll hw
      unfold weather
      simp [hcity, hll, hw]
  · intro hcity
    constructor
    · unfold weather
      simp only [hcity, if_neg, ite_false]
      rcases hco : env.weather_get_coordinates_for_city_name city with ⟨l1, l2⟩
      rcases l1 with _ | lat <;> rcases l2 with _ | lon <;> simp only [hco]
      · simp
      · simp
      · simp
      · rcases hw : env.weather_get_weather_for_coordinates lat lon with _ | w <;>
          rcases audio <;> simp [hw]
    · unfold weather
      simp only [hcity, if_neg, ite_false]
      rcases hco : env.weather_get_coordinates_for_city_name city with ⟨l1, l2⟩
      rcases l1 with _ | lat <;> rcases l2 with _ | lon <;> simp only [hco]
      · simp
      · simp
      · simp
      · rcases hw : env.weather_get_weather_for_coordinates lat lon with _ | w <;>
          rcases audio <;> simp [hw]

/-- Witness for `weather_city_source`: with no city supplied, the
geolocation branch runs end to end on the benign environment, and with the
city `"Paris"` the city-name collaborator is consulted instead. -/
theorem weather_city_source_witness :
    (weather env0 Value.none false).effects =
      [Effect.printed "Getting weather...", Effect.calledGeocoderIp,
       Effect.calledGetWeatherForCoordinates 52 21,
       Effect.printed (mkWeatherString "Warsaw" { description := "clear sky", temp := 20 })] ∧
    Effect.calledGeocoderIp ∉ (weather env0 (Value.str "Paris") false).effects := by
  constructor
  · have h := (weather_city_source env0 false Value.none).1 (Or.inl rfl)
    exact h.2.2 52 21 { description := "clear sky", temp := 20 } rfl rfl
  · exact ((weather_city_source env0 false (Value.str "Paris")).2 (by decide)).1

/-- Lookup after a Python dict assignment. -/
theorem dictLookup_dictInsert (args : Args) (k : String) (v : Value) (q : String) :
    dictLookup (dictInsert args k v) q =
      if k = q then Option.some v else dictLookup args q := by
  induction args with
  | nil => simp [dictLookup, dictInsert]
  | cons p rest ih =>
      by_cases hp : p.1 = k
      · by_cases hq : k = q
        · simp [dictLookup, dictInsert, hp, hq]
        · have : ¬(p.1 = q) := by rw [hp]; exact hq
          simp [dictLookup, dictInsert, hp, hq, this]
      · by_cases hpq : p.1 = q
        · have h1 : ¬(k = q) := by rw [← hpq]; exact fun h => hp h.symm
          have h2 : ¬(q = k) := fun h => h1 h.symm
          simp [dictLookup, dictInsert, hp, hpq, h1, h2]
        · simp [dictLookup, dictInsert, hp, hpq, ih]

/-- `callJob` consults its argument dictionary only through `dictLookup`,
so dictionaries with identical lookups dispatch identically. -/
theorem callJob_congr (env : Env) (jobs : List String) (name : String)
    (args1 args2 : Args) (h : ∀ q, dictLookup args1 q = dictLookup args2 q) :
    callJob env jobs name args1 = callJob env jobs name args2 := by
  unfold callJob
  rw [h "audio", h "question", h "city"]

/-- C9: the audio/output-mode argument every handler receives is the
`Employer` instance's construction-time `audio` flag — line 57
(`function_args["audio"] = self.audio`) overwrites whatever `audio` value
the inference collaborator supplied, so two resolver responses that differ
only in their `"audio"` argument produce identical dispatches (same job
map, same effects, same result). -/
theorem job_on_command_audio_overwritten (env : Env) (selfAudio : Bool)
    (jobs : List String) (name : String) (args1 args2 : Args)
    (h : ∀ q, q ≠ "audio" → dictLookup args1 q = dictLookup args2 q) :
    job_on_command env selfAudio jobs (Option.some ⟨name, args1⟩) =
      job_on_command env selfAudio jobs (Option.some ⟨name, args2⟩) := by
  have hlook : ∀ q, dictLookup (dictInsert args1 "audio" (Value.bool selfAudio)) q =
      dictLookup (dictInsert args2 "audio" (Value.bool selfAudio)) q := by
    intro q
    rw [dictLookup_dictInsert, dictLookup_dictInsert]
    by_cases hq : "audio" = q
    · rw [if_pos hq, if_pos hq]
    · rw [if_neg hq, if_neg hq]
      exact h q (fun hk => hq hk.symm)
  simp only [job_on_command]
  split_ifs with hname
  · exact callJob_congr env jobs name _ _ hlook
  · rfl

/-- Witness for `job_on_command_audio_overwritten`: a resolver response
carrying `audio = True` dispatches `close_computer` exactly as one carrying
no `audio` argument at all. -/
theorem job_on_command_audio_overwritten_witness :
    job_on_command env0 false []
        (Option.some ⟨"close_computer", [("audio", Value.bool true)]⟩) =
      job_on_command env0 false [] (Option.some ⟨"close_computer", []⟩) := by
  refine job_on_command_audio_overwritten env0 false [] "close_computer"
    [("audio", Value.bool true)] [] ?_
  intro q hq
  have hq' : ¬("audio" = q) := fun h => hq h.symm
  simp [dictLookup, hq']

end Claims
